import Mathlib

/-!
Verification of the category progress bar logic of the budgeting client.

The repository holds two drafts of the pure helper `computeCategoryProgress`
together with the presentational `CategoryProgressBar` component:

* a simple variant with states `within-budget` and `over-budget`
  (no template input), and
* a template-aware variant with states `funded`, `underfunded` and
  `over-budget`, an extra `template` input, and an extra `budgetedRatio`
  output.

Monetary amounts are integers (cents) fed through JavaScript number
arithmetic; the only operations performed are absolute value, subtraction,
comparison, `Math.min` and division, so we embed the numbers as rationals,
where all of these are exact.  Each division of the source is additionally
mirrored by a `checked` variant of the function in which division is a
operation that fails (`none`) on a zero divisor, so that totality of the
original and unreachability of the division-by-zero case become provable
statements.

Namespace `Simple` embeds the simple variant, namespace `Templated` the
template-aware one.  The render decision of the `CategoryProgressBar`
component (return `null` when the feature flag is off or the baseline is
not positive) is embedded as `categoryProgressBarRenders`.
-/

namespace CategoryProgress

/-- Division that fails on a zero divisor, used by the `checked` variants of
the compute functions to witness that every division of the source has a
nonzero divisor on every reachable path. -/
def checkedDiv (a b : ℚ) : Option ℚ :=
  if b = 0 then none else some (a / b)

namespace Simple

/-- Input record of the simple variant: `assigned`, `activity` and `balance`
in cents. -/
structure ProgressParams where
  assigned : ℚ
  activity : ℚ
  balance : ℚ
deriving Repr, DecidableEq

/-- Visual state of the simple variant. -/
inductive ProgressState where
  | withinBudget
  | overBudget
deriving Repr, DecidableEq

/-- Output record of the simple variant. -/
structure ProgressResult where
  baselineAmount : ℚ
  progressRatio : ℚ
  overflowRatio : ℚ
  remaining : ℚ
  state : ProgressState
deriving Repr, DecidableEq

/-- The simple variant of `computeCategoryProgress`. -/
def computeCategoryProgress (params : ProgressParams) : ProgressResult :=
  let spent := |params.activity|
  if params.assigned ≤ 0 then
    if spent ≤ 0 then
      { baselineAmount := 0
        progressRatio := 0
        overflowRatio := 0
        remaining := 0
        state := ProgressState.withinBudget }
    else
      { baselineAmount := spent
        progressRatio := 1
        overflowRatio := 0
        remaining := params.balance
        state := ProgressState.overBudget }
  else if params.assigned < spent then
    { baselineAmount := params.assigned
      progressRatio := 1
      overflowRatio := (spent - params.assigned) / params.assigned
      remaining := params.balance
      state := ProgressState.overBudget }
  else
    { baselineAmount := params.assigned
      progressRatio := spent / params.assigned
      overflowRatio := 0
      remaining := params.balance
      state := ProgressState.withinBudget }

/-- The simple variant with every division routed through `checkedDiv`, so
that a reachable division by zero would surface as `none`. -/
def computeCategoryProgressChecked (params : ProgressParams) :
    Option ProgressResult :=
  let spent := |params.activity|
  if params.assigned ≤ 0 then
    if spent ≤ 0 then
      some
        { baselineAmount := 0
          progressRatio := 0
          overflowRatio := 0
          remaining := 0
          state := ProgressState.withinBudget }
    else
      some
        { baselineAmount := spent
          progressRatio := 1
          overflowRatio := 0
          remaining := params.balance
          state := ProgressState.overBudget }
  else if params.assigned < spent then
    Option.map
      (fun overflow =>
        { baselineAmount := params.assigned
          progressRatio := 1
          overflowRatio := overflow
          remaining := params.balance
          state := ProgressState.overBudget })
      (checkedDiv (spent - params.assigned) params.assigned)
  else
    Option.map
      (fun ratio =>
        { baselineAmount := params.assigned
          progressRatio := ratio
          overflowRatio := 0
          remaining := params.balance
          state := ProgressState.withinBudget })
      (checkedDiv spent params.assigned)

/-- Render decision of the `CategoryProgressBar` component (simple variant):
the source returns `null` exactly when the feature flag is off or the
computed `baselineAmount` is not positive, and a non-empty tree otherwise. -/
def categoryProgressBarRenders (progressBarEnabled : Bool)
    (params : ProgressParams) : Bool :=
  progressBarEnabled &&
    !(decide ((computeCategoryProgress params).baselineAmount ≤ 0))

end Simple

namespace Templated

/-- Input record of the template-aware variant: `assigned`, `activity`,
`balance` and `template` in cents; the source defaults an absent `template`
to `0`. -/
structure ProgressParams where
  assigned : ℚ
  activity : ℚ
  balance : ℚ
  template : ℚ
deriving Repr, DecidableEq

/-- Visual state of the template-aware variant. -/
inductive ProgressState where
  | funded
  | underfunded
  | overBudget
deriving Repr, DecidableEq

/-- Output record of the template-aware variant. -/
structure ProgressResult where
  baselineAmount : ℚ
  spentRatio : ℚ
  budgetedRatio : ℚ
  overflowRatio : ℚ
  remaining : ℚ
  state : ProgressState
deriving Repr, DecidableEq

/-- The template-aware variant of `computeCategoryProgress`. -/
def computeCategoryProgress (params : ProgressParams) : ProgressResult :=
  let spent := |params.activity|
  let budgetedRatio :=
    if 0 < params.template then min (params.assigned / params.template) 1
    else 1
  if params.assigned ≤ 0 then
    if spent ≤ 0 then
      { baselineAmount := 0
        spentRatio := 0
        budgetedRatio := 0
        overflowRatio := 0
        remaining := 0
        state := ProgressState.funded }
    else
      { baselineAmount := spent
        spentRatio := 1
        budgetedRatio := 0
        overflowRatio := 0
        remaining := params.balance
        state := ProgressState.overBudget }
  else if params.assigned < spent then
    { baselineAmount := params.assigned
      spentRatio := 1
      budgetedRatio := 1
      overflowRatio := (spent - params.assigned) / params.assigned
      remaining := params.balance
      state := ProgressState.overBudget }
  else
    let isUnderfunded := 0 < params.template ∧ params.assigned < params.template
    let baselineAmount :=
      if 0 < params.template then params.template else params.assigned
    let spentRatio :=
      if 0 < params.assigned then min (spent / params.assigned) 1 * budgetedRatio
      else 0
    { baselineAmount := baselineAmount
      spentRatio := spentRatio
      budgetedRatio := budgetedRatio
      overflowRatio := 0
      remaining := params.balance
      state :=
        if isUnderfunded then ProgressState.underfunded
        else ProgressState.funded }

/-- The template-aware variant with every division routed through
`checkedDiv`, so that a reachable division by zero would surface as
`none`. -/
def computeCategoryProgressChecked (params : ProgressParams) :
    Option ProgressResult :=
  let spent := |params.activity|
  let budgetedRatioOpt :=
    if 0 < params.template then
      Option.map (fun q => min q 1)
        (checkedDiv params.assigned params.template)
    else some 1
  Option.bind budgetedRatioOpt fun budgetedRatio =>
    if params.assigned ≤ 0 then
      if spent ≤ 0 then
        some
          { baselineAmount := 0
            spentRatio := 0
            budgetedRatio := 0
            overflowRatio := 0
            remaining := 0
            state := ProgressState.funded }
      else
        some
          { baselineAmount := spent
            spentRatio := 1
            budgetedRatio := 0
            overflowRatio := 0
            remaining := params.balance
            state := ProgressState.overBudget }
    else if params.assigned < spent then
      Option.map
        (fun overflow =>
          { baselineAmount := params.assigned
            spentRatio := 1
            budgetedRatio := 1
            overflowRatio := overflow
            remaining := params.balance
            state := ProgressState.overBudget })
        (checkedDiv (spent - params.assigned) params.assigned)
    else
      let spentRatioOpt :=
        if 0 < params.assigned then
          Option.map (fun q => min q 1 * budgetedRatio)
            (checkedDiv spent params.assigned)
        else some 0
      Option.map
        (fun spentRatio =>
          { baselineAmount :=
              if 0 < params.template then params.template else params.assigned
            spentRatio := spentRatio
            budgetedRatio := budgetedRatio
            overflowRatio := 0
            remaining := params.balance
            state :=
              if 0 < params.template ∧ params.assigned < params.template then
                ProgressState.underfunded
              else ProgressState.funded })
        spentRatioOpt

/-- Render decision of the `CategoryProgressBar` component (template-aware
variant): the source returns `null` exactly when the feature flag is off or
the computed `baselineAmount` is not positive, and a non-empty tree
otherwise. -/
def categoryProgressBarRenders (progressBarEnabled : Bool)
    (params : ProgressParams) : Bool :=
  progressBarEnabled &&
    !(decide ((computeCategoryProgress params).baselineAmount ≤ 0))

end Templated

end CategoryProgress

namespace CategoryProgress

/-- Claim C1 counterexample: in the branch where `assigned ≤ 0` and
`|activity| = 0`, the source returns `remaining = 0` and not the input
`balance`; at `assigned = 0`, `activity = 0`, `balance = 700` the output
field `remaining` differs from `balance`. -/
theorem remaining_eq_balance_cex :
    (Simple.computeCategoryProgress ⟨0, 0, 700⟩).remaining ≠
      (⟨0, 0, 700⟩ : Simple.ProgressParams).balance := by
  norm_num [Simple.computeCategoryProgress]

/-- Claim C1 (amended): in both variants, the `remaining` field of the
output equals the input `balance` in every branch except the quiescent one
where `assigned ≤ 0` and `|activity| ≤ 0`, where the source returns
`remaining = 0` instead. -/
theorem remaining_policy :
    (∀ p : Simple.ProgressParams,
        (Simple.computeCategoryProgress p).remaining =
          if p.assigned ≤ 0 ∧ |p.activity| ≤ 0 then 0 else p.balance) ∧
    (∀ p : Templated.ProgressParams,
        (Templated.computeCategoryProgress p).remaining =
          if p.assigned ≤ 0 ∧ |p.activity| ≤ 0 then 0 else p.balance) := by
  constructor
  · intro p
    simp only [Simple.computeCategoryProgress]
    split_ifs with h1 h2 h3 <;> simp_all
  · intro p
    simp only [Templated.computeCategoryProgress]
    split_ifs with h1 h2 h3 <;> simp_all

/-- Claim C10: negating the `activity` input leaves the output of both
variants of `computeCategoryProgress` unchanged: only the magnitude of
`activity` influences the result. -/
theorem activity_sign_irrelevant :
    (∀ p : Simple.ProgressParams,
        Simple.computeCategoryProgress ⟨p.assigned, -p.activity, p.balance⟩ =
          Simple.computeCategoryProgress p) ∧
    (∀ p : Templated.ProgressParams,
        Templated.computeCategoryProgress
            ⟨p.assigned, -p.activity, p.balance, p.template⟩ =
          Templated.computeCategoryProgress p) := by
  constructor
  · intro p
    simp only [Simple.computeCategoryProgress, abs_neg]
  · intro p
    simp only [Templated.computeCategoryProgress, abs_neg]

/-- Claim C5: in both variants, when `assigned > 0` and
`spent = |activity| > assigned`, the output has `baselineAmount = assigned`,
ratio `1`, `overflowRatio = (spent - assigned) / assigned` and state
over-budget. -/
theorem over_budget_branch (a act b t : ℚ) (ha : 0 < a) (hs : a < |act|) :
    Simple.computeCategoryProgress ⟨a, act, b⟩ =
        { baselineAmount := a
          progressRatio := 1
          overflowRatio := (|act| - a) / a
          remaining := b
          state := Simple.ProgressState.overBudget } ∧
    Templated.computeCategoryProgress ⟨a, act, b, t⟩ =
        { baselineAmount := a
          spentRatio := 1
          budgetedRatio := 1
          overflowRatio := (|act| - a) / a
          remaining := b
          state := Templated.ProgressState.overBudget } := by
  have h1 : ¬ a ≤ 0 := not_le.mpr ha
  constructor
  · simp only [Simple.computeCategoryProgress]
    rw [if_neg h1, if_pos hs]
  · simp only [Templated.computeCategoryProgress]
    rw [if_neg h1, if_pos hs]

/-- Claim C5 witness: at `assigned = 10000`, `activity = -12000`,
`balance = -2000` (and `template = 0`) both variants report an overflow
ratio of one fifth and the over-budget state. -/
theorem over_budget_branch_witness :
    (Simple.computeCategoryProgress ⟨10000, -12000, -2000⟩).overflowRatio =
        1 / 5 ∧
    (Templated.computeCategoryProgress ⟨10000, -12000, -2000, 0⟩).state =
      Templated.ProgressState.overBudget := by
  have h :=
    over_budget_branch 10000 (-12000) (-2000) 0 (by norm_num) (by norm_num)
  rw [h.1, h.2]
  norm_num

/-- Claim C6: in both variants, when `assigned ≤ 0` and
`spent = |activity| > 0`, the output has `baselineAmount = spent`, ratio `1`,
`overflowRatio = 0` and state over-budget. -/
theorem no_budget_spend_branch (a act b t : ℚ) (ha : a ≤ 0)
    (hs : 0 < |act|) :
    Simple.computeCategoryProgress ⟨a, act, b⟩ =
        { baselineAmount := |act|
          progressRatio := 1
          overflowRatio := 0
          remaining := b
          state := Simple.ProgressState.overBudget } ∧
    Templated.computeCategoryProgress ⟨a, act, b, t⟩ =
        { baselineAmount := |act|
          spentRatio := 1
          budgetedRatio := 0
          overflowRatio := 0
          remaining := b
          state := Templated.ProgressState.overBudget } := by
  have h2 : ¬ |act| ≤ 0 := not_le.mpr hs
  constructor
  · simp only [Simple.computeCategoryProgress]
    rw [if_pos ha, if_neg h2]
  · simp only [Templated.computeCategoryProgress]
    rw [if_pos ha, if_neg h2]

/-- Claim C6 witness: at `assigned = 0`, `activity = -500`,
`balance = -500` (and `template = 0`) both variants report baseline `500`
and the over-budget state. -/
theorem no_budget_spend_branch_witness :
    (Simple.computeCategoryProgress ⟨0, -500, -500⟩).baselineAmount = 500 ∧
    (Templated.computeCategoryProgress ⟨0, -500, -500, 0⟩).state =
      Templated.ProgressState.overBudget := by
  have h :=
    no_budget_spend_branch 0 (-500) (-500) 0 (by norm_num) (by norm_num)
  rw [h.1, h.2]
  norm_num

end CategoryProgress

namespace CategoryProgress

/-- The spec invariants on an output of the simple variant: the ratio lies
in the unit interval, overflow is nonnegative, positive overflow forces a
full bar, the baseline is nonnegative, and a zero baseline forces zero
ratios. -/
def Simple.invariants (r : Simple.ProgressResult) : Prop :=
  0 ≤ r.progressRatio ∧ r.progressRatio ≤ 1 ∧
  0 ≤ r.overflowRatio ∧ (0 < r.overflowRatio → r.progressRatio = 1) ∧
  0 ≤ r.baselineAmount ∧
  (r.baselineAmount = 0 → r.progressRatio = 0 ∧ r.overflowRatio = 0)

/-- The spec invariants on an output of the template-aware variant, stated
on `spentRatio`. -/
def Templated.invariants (r : Templated.ProgressResult) : Prop :=
  0 ≤ r.spentRatio ∧ r.spentRatio ≤ 1 ∧
  0 ≤ r.overflowRatio ∧ (0 < r.overflowRatio → r.spentRatio = 1) ∧
  0 ≤ r.baselineAmount ∧
  (r.baselineAmount = 0 → r.spentRatio = 0 ∧ r.overflowRatio = 0)

/-- Claim C2: every output of either variant of `computeCategoryProgress`
satisfies the spec invariants. -/
theorem computeCategoryProgress_invariants :
    (∀ p : Simple.ProgressParams,
        Simple.invariants (Simple.computeCategoryProgress p)) ∧
    (∀ p : Templated.ProgressParams,
        Templated.invariants (Templated.computeCategoryProgress p)) := by
  constructor
  · intro p
    simp only [Simple.invariants, Simple.computeCategoryProgress]
    by_cases h1 : p.assigned ≤ 0
    · by_cases h2 : |p.activity| ≤ 0
      · rw [if_pos h1, if_pos h2]
        norm_num
      · rw [if_pos h1, if_neg h2]
        have hact : 0 ≤ |p.activity| := abs_nonneg p.activity
        refine ⟨zero_le_one, le_refl 1, le_refl 0,
          fun _ => rfl, hact, fun h => absurd h.le h2⟩
    · have ha : 0 < p.assigned := lt_of_not_le h1
      by_cases h3 : p.assigned < |p.activity|
      · rw [if_neg h1, if_pos h3]
        have hnum : 0 ≤ |p.activity| - p.assigned := by linarith
        refine ⟨zero_le_one, le_refl 1, div_nonneg hnum ha.le,
          fun _ => rfl, ha.le, fun h => absurd h (ne_of_gt ha)⟩
      · rw [if_neg h1, if_neg h3]
        have hs : |p.activity| ≤ p.assigned := le_of_not_lt h3
        refine ⟨div_nonneg (abs_nonneg _) ha.le, (div_le_one ha).mpr hs,
          le_refl 0, fun h => absurd h (lt_irrefl 0), ha.le,
          fun h => absurd h (ne_of_gt ha)⟩
  · intro p
    simp only [Templated.invariants, Templated.computeCategoryProgress]
    by_cases h1 : p.assigned ≤ 0
    · by_cases h2 : |p.activity| ≤ 0
      · rw [if_pos h1, if_pos h2]
        norm_num
      · rw [if_pos h1, if_neg h2]
        have hact : 0 ≤ |p.activity| := abs_nonneg p.activity
        refine ⟨zero_le_one, le_refl 1, le_refl 0,
          fun _ => rfl, hact, fun h => absurd h.le h2⟩
    · have ha : 0 < p.assigned := lt_of_not_le h1
      by_cases h3 : p.assigned < |p.activity|
      · rw [if_neg h1, if_pos h3]
        have hnum : 0 ≤ |p.activity| - p.assigned := by linarith
        refine ⟨zero_le_one, le_refl 1, div_nonneg hnum ha.le,
          fun _ => rfl, ha.le, fun h => absurd h (ne_of_gt ha)⟩
      · rw [if_neg h1, if_neg h3, if_pos ha]
        dsimp only
        have hs : |p.activity| ≤ p.assigned := le_of_not_lt h3
        have hm0 : (0 : ℚ) ≤ min (|p.activity| / p.assigned) 1 :=
          le_min (div_nonneg (abs_nonneg _) ha.le) zero_le_one
        have hm1 : min (|p.activity| / p.assigned) 1 ≤ 1 := min_le_right _ _
        by_cases ht : 0 < p.template
        · simp only [if_pos ht]
          have hb0 : (0 : ℚ) ≤ min (p.assigned / p.template) 1 :=
            le_min (div_nonneg ha.le ht.le) zero_le_one
          have hb1 : min (p.assigned / p.template) 1 ≤ 1 := min_le_right _ _
          refine ⟨mul_nonneg hm0 hb0, by nlinarith, le_refl 0,
            fun h => absurd h (lt_irrefl 0), ht.le,
            fun h => absurd h (ne_of_gt ht)⟩
        · simp only [if_neg ht]
          refine ⟨by nlinarith, by nlinarith, le_refl 0,
            fun h => absurd h (lt_irrefl 0), ha.le,
            fun h => absurd h (ne_of_gt ha)⟩

/-- Claim C2 witness: the invariants hold at the concrete input
`assigned = 10000`, `activity = -12000`, `balance = -2000` in the simple
variant and at `assigned = 100`, `activity = -50`, `balance = 50`,
`template = 200` in the template-aware variant. -/
theorem computeCategoryProgress_invariants_witness :
    Simple.invariants (Simple.computeCategoryProgress ⟨10000, -12000, -2000⟩) ∧
    Templated.invariants
      (Templated.computeCategoryProgress ⟨100, -50, 50, 200⟩) :=
  ⟨computeCategoryProgress_invariants.1 ⟨10000, -12000, -2000⟩,
    computeCategoryProgress_invariants.2 ⟨100, -50, 50, 200⟩⟩

end CategoryProgress

namespace CategoryProgress

/-- Claim C3: both variants of `computeCategoryProgress` are total: the
`checked` version, in which every division of the source fails on a zero
divisor, never fails and agrees with the unchecked function on every input,
so every division on every reachable path has a nonzero divisor. -/
theorem computeCategoryProgress_total :
    (∀ p : Simple.ProgressParams,
        Simple.computeCategoryProgressChecked p =
          some (Simple.computeCategoryProgress p)) ∧
    (∀ p : Templated.ProgressParams,
        Templated.computeCategoryProgressChecked p =
          some (Templated.computeCategoryProgress p)) := by
  constructor
  · intro p
    simp only [Simple.computeCategoryProgressChecked,
      Simple.computeCategoryProgress, checkedDiv]
    by_cases h1 : p.assigned ≤ 0
    · by_cases h2 : |p.activity| ≤ 0
      · rw [if_pos h1, if_pos h2, if_pos h1, if_pos h2]
      · rw [if_pos h1, if_neg h2, if_pos h1, if_neg h2]
    · have ha : p.assigned ≠ 0 := fun h => h1 (le_of_eq h)
      by_cases h3 : p.assigned < |p.activity|
      · rw [if_neg h1, if_pos h3, if_neg h1, if_pos h3, if_neg ha]
        rfl
      · rw [if_neg h1, if_neg h3, if_neg h1, if_neg h3, if_neg ha]
        rfl
  · intro p
    simp only [Templated.computeCategoryProgressChecked,
      Templated.computeCategoryProgress, checkedDiv]
    have hbr :
        (if 0 < p.template then
            Option.map (fun q => min q 1)
              (if p.template = 0 then none
                else some (p.assigned / p.template))
          else some 1) =
          some (if 0 < p.template then min (p.assigned / p.template) 1
            else 1) := by
      by_cases ht : 0 < p.template
      · rw [if_pos ht, if_pos ht, if_neg (ne_of_gt ht)]
        rfl
      · rw [if_neg ht, if_neg ht]
    rw [hbr, Option.some_bind]
    by_cases h1 : p.assigned ≤ 0
    · by_cases h2 : |p.activity| ≤ 0
      · rw [if_pos h1, if_pos h2, if_pos h1, if_pos h2]
      · rw [if_pos h1, if_neg h2, if_pos h1, if_neg h2]
    · have ha : p.assigned ≠ 0 := fun h => h1 (le_of_eq h)
      have ha' : 0 < p.assigned := lt_of_not_le h1
      by_cases h3 : p.assigned < |p.activity|
      · rw [if_neg h1, if_pos h3, if_neg h1, if_pos h3, if_neg ha]
        rfl
      · rw [if_neg h1, if_neg h3, if_neg h1, if_neg h3, if_pos ha', if_pos ha',
          if_neg ha]
        rfl

end CategoryProgress

namespace CategoryProgress

/-- Claim C7: in the template-aware variant, when `assigned > 0` and
`spent = |activity| ≤ assigned`, the baseline is the template when the
template is positive and `assigned` otherwise, the spent ratio is
`min(spent / assigned, 1)` scaled by the returned `budgetedRatio`, and the
state is underfunded exactly when a positive template exceeds `assigned`,
else funded. -/
theorem templated_within_branch (a act b t : ℚ) (ha : 0 < a)
    (hs : |act| ≤ a) :
    (Templated.computeCategoryProgress ⟨a, act, b, t⟩).baselineAmount =
        (if 0 < t then t else a) ∧
    (Templated.computeCategoryProgress ⟨a, act, b, t⟩).spentRatio =
        min (|act| / a) 1 *
          (Templated.computeCategoryProgress ⟨a, act, b, t⟩).budgetedRatio ∧
    (Templated.computeCategoryProgress ⟨a, act, b, t⟩).state =
        (if 0 < t ∧ a < t then Templated.ProgressState.underfunded
          else Templated.ProgressState.funded) := by
  have h1 : ¬ a ≤ 0 := not_le.mpr ha
  have h3 : ¬ a < |act| := not_lt.mpr hs
  simp only [Templated.computeCategoryProgress]
  rw [if_neg h1, if_neg h3]
  dsimp only
  rw [if_pos ha]
  exact ⟨rfl, rfl, rfl⟩

/-- Claim C7 witness: at `assigned = 100`, `activity = -50`, `balance = 50`,
`template = 200` the within-budget branch reports baseline `200`, spent
ratio one quarter and the underfunded state. -/
theorem templated_within_branch_witness :
    (Templated.computeCategoryProgress ⟨100, -50, 50, 200⟩).baselineAmount =
        200 ∧
    (Templated.computeCategoryProgress ⟨100, -50, 50, 200⟩).spentRatio =
        1 / 4 ∧
    (Templated.computeCategoryProgress ⟨100, -50, 50, 200⟩).state =
      Templated.ProgressState.underfunded := by
  have h := templated_within_branch 100 (-50) 50 200 (by norm_num) (by norm_num)
  have hb :
      (Templated.computeCategoryProgress ⟨100, -50, 50, 200⟩).budgetedRatio =
        1 / 2 := by
    norm_num [Templated.computeCategoryProgress, min_def]
  refine ⟨?_, ?_, ?_⟩
  · rw [h.1]
    norm_num
  · rw [h.2.1, hb]
    norm_num [min_def]
  · rw [h.2.2]
    norm_num

/-- Claim C8 counterexample: at `assigned = 100`, `activity = -300`,
`balance = -200`, `template = 200` the over-budget branch returns
`budgetedRatio = 1`, not `min(assigned / template, 1) = 1 / 2`. -/
theorem budgetedRatio_formula_cex :
    (Templated.computeCategoryProgress ⟨100, -300, -200, 200⟩).budgetedRatio ≠
      min ((100 : ℚ) / 200) 1 := by
  norm_num [Templated.computeCategoryProgress, min_def]

/-- Claim C8 (amended): the template-aware variant returns
`budgetedRatio = min(assigned / template, 1)` when the template is positive
and `1` otherwise only in the branch with `assigned > 0` and
`|activity| ≤ assigned`; both no-budget branches return `budgetedRatio = 0`
and the over-budget branch returns `budgetedRatio = 1`. -/
theorem budgetedRatio_policy (p : Templated.ProgressParams) :
    (Templated.computeCategoryProgress p).budgetedRatio =
      if p.assigned ≤ 0 then 0
      else if p.assigned < |p.activity| then 1
      else if 0 < p.template then min (p.assigned / p.template) 1
      else 1 := by
  simp only [Templated.computeCategoryProgress]
  by_cases h1 : p.assigned ≤ 0
  · by_cases h2 : |p.activity| ≤ 0
    · rw [if_pos h1, if_pos h2, if_pos h1]
    · rw [if_pos h1, if_neg h2, if_pos h1]
  · by_cases h3 : p.assigned < |p.activity|
    · rw [if_neg h1, if_pos h3, if_neg h1, if_pos h3]
    · rw [if_neg h1, if_neg h3, if_neg h1, if_neg h3]

/-- Claim C8 witness for the amended statement: at `assigned = 100`,
`activity = -50`, `template = 400` the within branch reports
`budgetedRatio = 1 / 4`. -/
theorem budgetedRatio_policy_witness :
    (Templated.computeCategoryProgress ⟨100, -50, 50, 400⟩).budgetedRatio =
      1 / 4 := by
  rw [budgetedRatio_policy ⟨100, -50, 50, 400⟩]
  norm_num [min_def]

end CategoryProgress

namespace CategoryProgress

/-- Claim C9: in both variants the output state is over-budget exactly when
`|activity| > max(assigned, 0)`; otherwise the state is within-budget in the
simple variant and funded or underfunded in the template-aware variant. -/
theorem state_over_budget_iff :
    (∀ p : Simple.ProgressParams,
        ((Simple.computeCategoryProgress p).state =
            Simple.ProgressState.overBudget ↔
          max p.assigned 0 < |p.activity|) ∧
        ((Simple.computeCategoryProgress p).state ≠
            Simple.ProgressState.overBudget →
          (Simple.computeCategoryProgress p).state =
            Simple.ProgressState.withinBudget)) ∧
    (∀ p : Templated.ProgressParams,
        ((Templated.computeCategoryProgress p).state =
            Templated.ProgressState.overBudget ↔
          max p.assigned 0 < |p.activity|) ∧
        ((Templated.computeCategoryProgress p).state ≠
            Templated.ProgressState.overBudget →
          (Templated.computeCategoryProgress p).state =
            Templated.ProgressState.underfunded ∨
          (Templated.computeCategoryProgress p).state =
            Templated.ProgressState.funded)) := by
  constructor
  · intro p
    simp only [Simple.computeCategoryProgress]
    by_cases h1 : p.assigned ≤ 0
    · by_cases h2 : |p.activity| ≤ 0
      · rw [if_pos h1, if_pos h2]
        have hact : |p.activity| = 0 := le_antisymm h2 (abs_nonneg _)
        refine ⟨⟨fun h => Simple.ProgressState.noConfusion h, fun h => ?_⟩, fun _ => rfl⟩
        rw [hact] at h
        exact absurd (lt_of_le_of_lt (le_max_right p.assigned 0) h)
          (lt_irrefl 0)
      · rw [if_pos h1, if_neg h2]
        refine ⟨⟨fun _ => ?_, fun _ => rfl⟩, fun h => absurd rfl h⟩
        rw [max_eq_right h1]
        exact lt_of_not_le h2
    · have ha : 0 < p.assigned := lt_of_not_le h1
      by_cases h3 : p.assigned < |p.activity|
      · rw [if_neg h1, if_pos h3]
        refine ⟨⟨fun _ => ?_, fun _ => rfl⟩, fun h => absurd rfl h⟩
        rw [max_eq_left ha.le]
        exact h3
      · rw [if_neg h1, if_neg h3]
        refine ⟨⟨fun h => Simple.ProgressState.noConfusion h, fun h => ?_⟩, fun _ => rfl⟩
        rw [max_eq_left ha.le] at h
        exact absurd h h3
  · intro p
    simp only [Templated.computeCategoryProgress]
    by_cases h1 : p.assigned ≤ 0
    · by_cases h2 : |p.activity| ≤ 0
      · rw [if_pos h1, if_pos h2]
        have hact : |p.activity| = 0 := le_antisymm h2 (abs_nonneg _)
        refine ⟨⟨fun h => Templated.ProgressState.noConfusion h, fun h => ?_⟩,
          fun _ => Or.inr rfl⟩
        rw [hact] at h
        exact absurd (lt_of_le_of_lt (le_max_right p.assigned 0) h)
          (lt_irrefl 0)
      · rw [if_pos h1, if_neg h2]
        refine ⟨⟨fun _ => ?_, fun _ => rfl⟩, fun h => absurd rfl h⟩
        rw [max_eq_right h1]
        exact lt_of_not_le h2
    · have ha : 0 < p.assigned := lt_of_not_le h1
      by_cases h3 : p.assigned < |p.activity|
      · rw [if_neg h1, if_pos h3]
        refine ⟨⟨fun _ => ?_, fun _ => rfl⟩, fun h => absurd rfl h⟩
        rw [max_eq_left ha.le]
        exact h3
      · rw [if_neg h1, if_neg h3]
        dsimp only
        by_cases hu : 0 < p.template ∧ p.assigned < p.template
        · rw [if_pos hu]
          refine ⟨⟨fun h => Templated.ProgressState.noConfusion h, fun h => ?_⟩,
            fun _ => Or.inl rfl⟩
          rw [max_eq_left ha.le] at h
          exact absurd h h3
        · rw [if_neg hu]
          refine ⟨⟨fun h => Templated.ProgressState.noConfusion h, fun h => ?_⟩,
            fun _ => Or.inr rfl⟩
          rw [max_eq_left ha.le] at h
          exact absurd h h3

/-- Claim C9 witness: at `assigned = 0`, `activity = -500` the simple
variant is over-budget and `max(assigned, 0) < |activity|` holds, and at
`assigned = 100`, `activity = -50`, `template = 0` the template-aware
variant is not over-budget. -/
theorem state_over_budget_iff_witness :
    ((Simple.computeCategoryProgress ⟨0, -500, -500⟩).state =
        Simple.ProgressState.overBudget ↔
      max (0 : ℚ) 0 < |(-500 : ℚ)|) ∧
    ((Templated.computeCategoryProgress ⟨100, -50, 50, 0⟩).state =
        Templated.ProgressState.overBudget ↔
      max (100 : ℚ) 0 < |(-50 : ℚ)|) :=
  ⟨(state_over_budget_iff.1 ⟨0, -500, -500⟩).1,
    (state_over_budget_iff.2 ⟨100, -50, 50, 0⟩).1⟩

end CategoryProgress

namespace CategoryProgress

/-- Claim C4 counterexample: `CategoryProgressBar` consults no user
preference flag: with the feature flag on, at `assigned = 10000`,
`activity = -3000`, `balance = 7000` it produces a non-empty render, and
rendering does not imply that an arbitrary externally-supplied preference
boolean is true. -/
theorem render_requires_preference_cex :
    Simple.categoryProgressBarRenders true ⟨10000, -3000, 7000⟩ = true ∧
    ¬ (∀ pref : Bool,
        Simple.categoryProgressBarRenders true ⟨10000, -3000, 7000⟩ = true →
          pref = true) := by
  have hr :
      Simple.categoryProgressBarRenders true ⟨10000, -3000, 7000⟩ = true := by
    norm_num [Simple.categoryProgressBarRenders, Simple.computeCategoryProgress]
  exact ⟨hr, fun h => Bool.false_ne_true (h false hr)⟩

/-- Claim C4 (amended): in both variants, `CategoryProgressBar` produces a
non-empty render exactly when the feature flag is true and the computed
`baselineAmount` is positive; no user preference flag is consulted.  In
particular nothing renders when the flag is false, and a non-empty render
is produced when the flag is true and the baseline is positive. -/
theorem render_iff_enabled_and_baseline :
    (∀ (enabled : Bool) (p : Simple.ProgressParams),
        Simple.categoryProgressBarRenders enabled p = true ↔
          enabled = true ∧
            0 < (Simple.computeCategoryProgress p).baselineAmount) ∧
    (∀ (enabled : Bool) (p : Templated.ProgressParams),
        Templated.categoryProgressBarRenders enabled p = true ↔
          enabled = true ∧
            0 < (Templated.computeCategoryProgress p).baselineAmount) := by
  constructor
  · intro enabled p
    simp [Simple.categoryProgressBarRenders, Bool.and_eq_true,
      Bool.not_eq_true', decide_eq_false_iff_not, not_le]
  · intro enabled p
    simp [Templated.categoryProgressBarRenders, Bool.and_eq_true,
      Bool.not_eq_true', decide_eq_false_iff_not, not_le]

/-- Claim C4 witness for the amended statement: with the flag off nothing
renders at baseline-positive input, and with the flag on and positive
baseline the render is non-empty. -/
theorem render_iff_enabled_and_baseline_witness :
    (Simple.categoryProgressBarRenders false ⟨10000, -3000, 7000⟩ = true ↔
      false = true ∧
        0 < (Simple.computeCategoryProgress ⟨10000, -3000, 7000⟩).baselineAmount) ∧
    (Templated.categoryProgressBarRenders true ⟨10000, -3000, 7000, 0⟩ = true ↔
      true = true ∧
        0 < (Templated.computeCategoryProgress
            ⟨10000, -3000, 7000, 0⟩).baselineAmount) :=
  ⟨render_iff_enabled_and_baseline.1 false ⟨10000, -3000, 7000⟩,
    render_iff_enabled_and_baseline.2 true ⟨10000, -3000, 7000, 0⟩⟩

/-- Claim C1 witness for the amended statement: at `assigned = 0`,
`activity = 0`, `balance = 700` the quiescent branch returns
`remaining = 0`, and at `assigned = 10000`, `activity = -3000`,
`balance = 7000` the balance is passed through. -/
theorem remaining_policy_witness :
    (Simple.computeCategoryProgress ⟨0, 0, 700⟩).remaining =
        (if (0 : ℚ) ≤ 0 ∧ |(0 : ℚ)| ≤ 0 then 0 else 700) ∧
    (Templated.computeCategoryProgress ⟨10000, -3000, 7000, 0⟩).remaining =
        (if (10000 : ℚ) ≤ 0 ∧ |(-3000 : ℚ)| ≤ 0 then 0 else 7000) :=
  ⟨remaining_policy.1 ⟨0, 0, 700⟩,
    remaining_policy.2 ⟨10000, -3000, 7000, 0⟩⟩

/-- Claim C10 witness: negating `activity = -3000` leaves both outputs
unchanged at a concrete input. -/
theorem activity_sign_irrelevant_witness :
    Simple.computeCategoryProgress ⟨10000, -(-3000), 7000⟩ =
        Simple.computeCategoryProgress ⟨10000, -3000, 7000⟩ ∧
    Templated.computeCategoryProgress ⟨10000, -(-3000), 7000, 0⟩ =
        Templated.computeCategoryProgress ⟨10000, -3000, 7000, 0⟩ :=
  ⟨activity_sign_irrelevant.1 ⟨10000, -3000, 7000⟩,
    activity_sign_irrelevant.2 ⟨10000, -3000, 7000, 0⟩⟩

/-- Claim C3 witness: the checked computation succeeds at a concrete input
in both variants. -/
theorem computeCategoryProgress_total_witness :
    Simple.computeCategoryProgressChecked ⟨10000, -12000, -2000⟩ =
        some (Simple.computeCategoryProgress ⟨10000, -12000, -2000⟩) ∧
    Templated.computeCategoryProgressChecked ⟨100, -50, 50, 200⟩ =
        some (Templated.computeCategoryProgress ⟨100, -50, 50, 200⟩) :=
  ⟨computeCategoryProgress_total.1 ⟨10000, -12000, -2000⟩,
    computeCategoryProgress_total.2 ⟨100, -50, 50, 200⟩⟩

end CategoryProgress
